import Mathlib

/-!
# Formal model of the Daily-News podcast pipeline

Shallow embedding of the two source files of the repository:

* `writer.py` — source fetchers (GNews, NewsAPI, NYTimes, Alpha Vantage,
  weather), prompt composition and script generation
  (`generate_podcast_script`);
* `app.py` — the `/generate_podcast` orchestrator (`generate_podcast`),
  TTS retry/fallback (`try_tts_generation`), base64 audio unwrapping and
  WAV packaging.

External collaborators (HTTP stack, the Gemini APIs, `base64`, the clock)
are modelled as explicit environment records: every outcome an external
call can produce in the Python code (a value, an empty/None value, or a
raised exception) is one constructor of the corresponding outcome type,
and the Lean functions reproduce the Python control flow on those
outcomes.  All functions are total: the Python code catches every
exception at the boundaries modelled here, so no exception escapes.
-/

/-! ## Python-semantics helpers -/

/-- Truthiness of an optional string (`if not x` in Python): `None` and the
empty string are falsy. -/
def pyFalsyOpt : Option String → Bool
  | none => true
  | some s => s == ""

/-- The ASCII whitespace characters removed by Python `str.strip()`. -/
def pyIsSpace (c : Char) : Bool :=
  c == ' ' || c == '\t' || c == '\n' || c == '\r' || c == '\x0b' || c == '\x0c'

/-- Python `str.strip()`: drop leading and trailing whitespace. -/
def pyStrip (s : String) : String :=
  ⟨(((s.data.dropWhile pyIsSpace).reverse.dropWhile pyIsSpace).reverse)⟩

/-- Python `str.startswith(p)`. -/
def pyStartsWith (s p : String) : Bool :=
  p.data.isPrefixOf s.data

/-- Python `s[:n]` (slicing counts code points, as does `List.take` on
`String.data`). -/
def pyTake (s : String) (n : Nat) : String :=
  ⟨s.data.take n⟩

/-- Python `str.replace("**", "")`: drop non-overlapping `**` pairs left
to right. -/
def removeDoubleStar : List Char → List Char
  | [] => []
  | [c] => [c]
  | c :: d :: rest =>
    if c = '*' ∧ d = '*' then removeDoubleStar rest
    else c :: removeDoubleStar (d :: rest)

/-- Python `str.replace("*", "")`: drop every `*`. -/
def removeStar : List Char → List Char
  | [] => []
  | c :: rest => if c = '*' then removeStar rest else c :: removeStar rest

/-- `script.replace("**", "").replace("*", "")` of `writer.py` line 262. -/
def stripEmphasis (s : String) : String :=
  ⟨removeStar (removeDoubleStar s.data)⟩

/-- How Python renders an `Optional[str]` inside an f-string. -/
def pyOptStr : Option String → String
  | none => "None"
  | some s => s

/-! ## The `rate=(\d+)` search of `app.py` line 343

`re.search` returns the leftmost match of the pattern: the first position
at which the literal `rate=` is followed by at least one decimal digit;
the captured group is the maximal digit run there. -/

/-- Numeric value of a digit run (most significant first). -/
def natOfDigits : List Char → Nat → Nat
  | [], acc => acc
  | c :: cs, acc => natOfDigits cs (acc * 10 + (c.toNat - 48))

/-- Try to match `rate=` followed by one or more digits at the head of the
list; return the captured number. -/
def matchRateAt : List Char → Option Nat
  | 'r' :: 'a' :: 't' :: 'e' :: '=' :: rest =>
    let ds := rest.takeWhile Char.isDigit
    if ds.isEmpty then none else some (natOfDigits ds 0)
  | _ => none

/-- Leftmost-match scan for `rate=(\d+)`. -/
def rateScan : List Char → Option Nat
  | [] => none
  | c :: rest =>
    match matchRateAt (c :: rest) with
    | some n => some n
    | none => rateScan rest

/-- `re.search(r"rate=(\d+)", s)` with the captured group converted by
`int`. -/
def rateSearch (s : String) : Option Nat :=
  rateScan s.data

/-- `app.py` lines 343-344: sample rate from the payload media type,
defaulting to 24000 when there is no mime type or no `rate=` token. -/
def sampleRateOf (mime_type : Option String) : Nat :=
  (rateSearch (mime_type.getD "")).getD 24000

/-! ## WAV container (`wave` module as configured by `app.py` 346-353)

`app.py` opens a `wave` writer with 1 channel, sample width 2 and the
parsed frame rate, and writes the decoded PCM bytes.  The CPython `wave`
module then produces the canonical 44-byte RIFF/WAVE header followed by
the raw sample bytes; `buildWav` is that byte stream (fields little
endian, reduced mod 2^32 where the format stores 4 bytes — within the
byte-size bounds used in the theorems below this agrees with CPython,
which would instead fail on out-of-range `struct` packs). -/

/-- Little-endian 4-byte encoding. -/
def u32le (n : Nat) : List Nat :=
  [n % 256, n / 256 % 256, n / 65536 % 256, n / 16777216 % 256]

/-- Little-endian 2-byte encoding. -/
def u16le (n : Nat) : List Nat :=
  [n % 256, n / 256 % 256]

def riffTag : List Nat := [82, 73, 70, 70]

def waveTag : List Nat := [87, 65, 86, 69]

def fmtTag : List Nat := [102, 109, 116, 32]

def dataTag : List Nat := [100, 97, 116, 97]

/-- The WAV byte stream produced for frame rate `rate` and PCM body
`pcm`: RIFF size, `WAVE`, `fmt ` chunk (PCM, 1 channel, `rate`, byte rate
`2*rate`, block align 2, 16 bits per sample), `data` chunk with the raw
bytes. -/
def buildWav (rate : Nat) (pcm : List Nat) : List Nat :=
  riffTag ++ (u32le (36 + pcm.length) ++ (waveTag ++ (fmtTag ++
    (u32le 16 ++ (u16le 1 ++ (u16le 1 ++ (u32le rate ++
    (u32le (rate * 2) ++ (u16le 2 ++ (u16le 16 ++ (dataTag ++
    (u32le pcm.length ++ pcm))))))))))))

/-- Byte of a stream at an index (0 past the end). -/
def byteAt (b : List Nat) (i : Nat) : Nat :=
  (b.get? i).getD 0

/-- Little-endian 16-bit field at an offset. -/
def u16at (b : List Nat) (i : Nat) : Nat :=
  byteAt b i + 256 * byteAt b (i + 1)

/-- Little-endian 32-bit field at an offset. -/
def u32at (b : List Nat) (i : Nat) : Nat :=
  byteAt b i + 256 * byteAt b (i + 1) + 65536 * byteAt b (i + 2) +
    16777216 * byteAt b (i + 3)

/-- The frame rate a WAV byte stream declares in its header. -/
def declaredFrameRate (b : List Nat) : Nat :=
  u32at b 24

/-- Read back a canonical-layout WAV container: check the `RIFF`, `WAVE`,
`fmt ` (chunk size 16, PCM format tag) and `data` markers, and return the
declared channel count, the sample width in bytes (bits per sample over
8), the declared frame rate, and the data chunk body. -/
def readWav : List Nat → Option (Nat × Nat × Nat × List Nat)
  | 82 :: 73 :: 70 :: 70 :: _ :: _ :: _ :: _ ::
    87 :: 65 :: 86 :: 69 ::
    102 :: 109 :: 116 :: 32 ::
    16 :: 0 :: 0 :: 0 ::
    1 :: 0 ::
    c0 :: c1 ::
    r0 :: r1 :: r2 :: r3 ::
    _ :: _ :: _ :: _ ::
    _ :: _ ::
    w0 :: w1 ::
    100 :: 97 :: 116 :: 97 ::
    s0 :: s1 :: s2 :: s3 :: rest =>
    some (c0 + 256 * c1, (w0 + 256 * w1) / 8,
      r0 + 256 * r1 + 65536 * r2 + 16777216 * r3,
      rest.take (s0 + 256 * s1 + 65536 * s2 + 16777216 * s3))
  | _ => none

/-! ## Source fetchers (`writer.py` 32-169)

Each fetcher reads one credential from the environment and performs one
HTTP GET.  A headline item or JSON payload is opaque downstream (the
composer only serializes it into the prompt), so items are modelled by
their serialized JSON text and the financial/weather payloads by
association lists.  `FetchOutcome` is everything the network call can
produce: an HTTP-status error, a URL/connection error (timeouts
included), any other raised exception (a payload that fails to decode
raises inside `json`/`response.json()` and lands here), or a decoded
payload. -/

/-- Outcome of one upstream HTTP call. -/
inductive FetchOutcome (J : Type) where
  | httpError (code : Nat) (reason : String)
  | urlError (reason : String)
  | exn (msg : String)
  | ok (data : J)
deriving DecidableEq

/-- Decoded GNews payload: `data.get("articles", [])`. -/
structure GnewsJson where
  articles : Option (List String)
deriving DecidableEq

/-- Decoded NewsAPI payload: a `status` field and
`news_data.get` of `articles` with default `[]`. -/
structure NewsapiJson where
  status : Option String
  articles : Option (List String)
deriving DecidableEq

/-- Decoded NYTimes payload: `data_us.get` of `results` with default `[]`. -/
structure NytimesJson where
  results : Option (List String)
deriving DecidableEq

/-- Alpha Vantage returns its decoded JSON object verbatim. -/
abbrev AlphaMap := List (String × String)

/-- The weather API returns its decoded JSON object verbatim. -/
abbrev WeatherMap := List (String × String)

/-- `writer.gnews_headlines` (lines 32-56): missing key or any error
degrades to `[]`. -/
def gnews_headlines (key : Option String) (outcome : FetchOutcome GnewsJson) :
    List String :=
  if pyFalsyOpt key then []
  else
    match outcome with
    | .ok data => data.articles.getD []
    | _ => []

/-- `writer.newsapi_headlines` (lines 58-89): additionally requires the
payload `status` field to be `"ok"`. -/
def newsapi_headlines (key : Option String) (outcome : FetchOutcome NewsapiJson) :
    List String :=
  if pyFalsyOpt key then []
  else
    match outcome with
    | .ok news_data =>
      if news_data.status == some "ok" then news_data.articles.getD [] else []
    | _ => []

/-- `writer.nytimes_headlines` (lines 91-115). -/
def nytimes_headlines (key : Option String) (outcome : FetchOutcome NytimesJson) :
    List String :=
  if pyFalsyOpt key then []
  else
    match outcome with
    | .ok data_us => data_us.results.getD []
    | _ => []

/-- `writer.alpha_vantage_headlines` (lines 117-137): the decoded mapping
is returned verbatim; failures degrade to the empty mapping. -/
def alpha_vantage_headlines (key : Option String) (outcome : FetchOutcome AlphaMap) :
    AlphaMap :=
  if pyFalsyOpt key then []
  else
    match outcome with
    | .ok data => data
    | _ => []

/-- `writer.weather` (lines 139-169): a missing position only changes the
query location (defaulted to San Francisco), not the result shape. -/
def weather (key weather_position : Option String) (outcome : FetchOutcome WeatherMap) :
    WeatherMap :=
  if pyFalsyOpt key then []
  else
    match outcome with
    | .ok data => data
    | _ => []

/-! ## Prompt composition (`writer.py` 208-240) -/

/-- Comma-join as in `json.dumps` list/object bodies. -/
def joinComma : List String → String
  | [] => ""
  | [x] => x
  | x :: y :: rest => x ++ (", " ++ joinComma (y :: rest))

/-- `json.dumps` of a list of (already serialized) items. -/
def dumpsList (l : List String) : String :=
  "[" ++ (joinComma l ++ "]")

/-- `json.dumps` of a JSON object modelled as an association list. -/
def dumpsMap (m : List (String × String)) : String :=
  "\x7b" ++ (joinComma (m.map fun kv => "\"" ++ (kv.1 ++ ("\": " ++ kv.2))) ++ "\x7d")

def fbA : String :=
  "You are a professional news podcast host. Unfortunately, we\x27re experiencing technical difficulties with our news feeds today. Please generate an engaging, informative segment about a significant recent scientific discovery or important historical event that happened this week in history. The segment should be conversational, about 5-7 minutes when spoken, and broken into clear sections for good listening flow. Make it engaging as if you\x27re talking directly to the listener. Today is "

def fbB : String :=
  ". DO NOT mention technical difficulties or missing news feeds in your script."

/-- The fallback prompt (`writer.py` 213-220). -/
def fallbackPrompt (current_date : String) : String :=
  fbA ++ (current_date ++ fbB)

def richA : String :=
  "You are creating a script for a professional news podcast broadcast. The script should be engaging, informative, and about 7-12 minutes when spoken aloud.\n\nIMPORTANT GUIDELINES:\n- Write ONLY the script content that will be read aloud\n- Do NOT include any stage directions, sound effect notes, or production notes\n- Make it conversational and engaging, as if speaking directly to listeners\n- Structure with clear transitions between topics\n- Focus primarily on the most significant and interesting stories\n- Today is "

def richB : String :=
  "\n\nNEWS SOURCES AVAILABLE:\n1. GNews Headlines: "

def richC : String :=
  "\n2. NewsAPI Headlines: "

def richD : String :=
  "  \n3. New York Times: "

def richE : String :=
  "\n4. Business/Finance (Alpha Vantage): "

def richF : String :=
  "\n5. Weather: "

def richG : String :=
  "\n\nCreate an engaging, well-structured news broadcast script. Focus on the most newsworthy stories, provide context and analysis, and maintain a professional yet conversational tone throughout. The script should flow naturally from one topic to the next."

/-- The rich prompt (`writer.py` 223-240): first five items of each
list-source, full business and weather payloads, each replaced by
`No data available` when its source is empty. -/
def richPrompt (gnews_data newsapi_data nytimes_data : List String)
    (alpha_vantage_data weather_data : List (String × String))
    (current_date : String) : String :=
  richA ++ (current_date ++ (richB ++
    ((if !gnews_data.isEmpty then dumpsList (gnews_data.take 5) else "No data available") ++
    (richC ++
    ((if !newsapi_data.isEmpty then dumpsList (newsapi_data.take 5) else "No data available") ++
    (richD ++
    ((if !nytimes_data.isEmpty then dumpsList (nytimes_data.take 5) else "No data available") ++
    (richE ++
    ((if !alpha_vantage_data.isEmpty then dumpsMap alpha_vantage_data else "No data available") ++
    (richF ++
    ((if !weather_data.isEmpty then dumpsMap weather_data else "No data available") ++
    richG)))))))))))

/-- `writer.py` 211-240: `if not any([gnews_data, newsapi_data,
nytimes_data])` selects the fallback prompt, otherwise the rich prompt. -/
def composePrompt (gnews_data newsapi_data nytimes_data : List String)
    (alpha_vantage_data weather_data : List (String × String))
    (current_date : String) : String :=
  if !(!gnews_data.isEmpty || !newsapi_data.isEmpty || !nytimes_data.isEmpty) then
    fallbackPrompt current_date
  else
    richPrompt gnews_data newsapi_data nytimes_data alpha_vantage_data
      weather_data current_date

/-! ## Script generation (`writer.py` 171-274) -/

/-- Environment of one `generate_podcast_script` invocation: import and
client-initialization outcomes, the five fetcher environments, the
formatted current date, and the text-model call (exception message, or a
response whose `text` may be `None`/empty). -/
structure WriterEnv where
  genaiImport : Except String Unit
  geminiKey : Option String
  clientInit : Option String
  gnewsKey : Option String
  gnewsOutcome : FetchOutcome GnewsJson
  newsapiKey : Option String
  newsapiOutcome : FetchOutcome NewsapiJson
  nytimesKey : Option String
  nytimesOutcome : FetchOutcome NytimesJson
  alphaKey : Option String
  alphaOutcome : FetchOutcome AlphaMap
  weatherKey : Option String
  weatherPosition : Option String
  weatherOutcome : FetchOutcome WeatherMap
  currentDate : String
  modelCall : String → Except String (Option String)

/-- `writer.get_api_key` (lines 12-30): raises `ValueError` when the key
is absent (the `.env` loading failures are caught and ignored). -/
def get_api_key (key : Option String) : Except String String :=
  if pyFalsyOpt key then .error "GEMINI_API_KEY not found in environment variables."
  else .ok (key.getD "")

/-- The prompt `generate_podcast_script` sends: the composer applied to
the five fetch results. -/
def writerPrompt (env : WriterEnv) : String :=
  composePrompt (gnews_headlines env.gnewsKey env.gnewsOutcome)
    (newsapi_headlines env.newsapiKey env.newsapiOutcome)
    (nytimes_headlines env.nytimesKey env.nytimesOutcome)
    (alpha_vantage_headlines env.alphaKey env.alphaOutcome)
    (weather env.weatherKey env.weatherPosition env.weatherOutcome)
    env.currentDate

/-- `writer.generate_podcast_script` (lines 171-274).  Always returns a
string; failures are returned as marker strings, exactly as in the
source.  Note the order on the success path: the response text is
stripped, the 100-character check is applied to the stripped text, and
only then is the `**`/`*` emphasis markup removed. -/
def generate_podcast_script (env : WriterEnv) : String :=
  match env.genaiImport with
  | .error e => "Error: Failed to import google.generativeai: " ++ e
  | .ok _ =>
    match get_api_key env.geminiKey with
    | .error e => "Error: " ++ e
    | .ok _ =>
      match env.clientInit with
      | some e => "Error initializing Gemini client: " ++ e
      | none =>
        match env.modelCall (writerPrompt env) with
        | .error e => "Error generating script: " ++ e
        | .ok txt =>
          match txt with
          | none => "Error: Empty response from Gemini"
          | some t =>
            if t == "" then "Error: Empty response from Gemini"
            else
              if (pyStrip t).length < 100 then "Generated script is too short"
              else stripEmphasis (pyStrip t)

/-! ## Speech synthesis (`app.py` 154-191 and 275-299) -/

/-- `inline_data` of a TTS response part: base64 data and media type,
either of which may be absent. -/
structure InlineData where
  data : Option String
  mime_type : Option String
deriving DecidableEq

/-- One content part of a TTS candidate. -/
structure TtsPart where
  inline_data : Option InlineData
deriving DecidableEq

/-- Content of a TTS candidate. -/
structure TtsContent where
  parts : List TtsPart
deriving DecidableEq

/-- One candidate of a TTS response. -/
structure TtsCandidate where
  content : Option TtsContent
deriving DecidableEq

/-- A TTS generation response. -/
structure TtsResponse where
  candidates : List TtsCandidate
deriving DecidableEq

/-- Outcome of one `generate_content` call: a raised exception, or a
returned response (possibly `None`). -/
inductive GenCallResult where
  | ret (resp : Option TtsResponse)
  | raise (msg : String)
deriving DecidableEq

/-- Result of `try_tts_generation`: the pair the Python function returns,
instrumented with the number of generation calls it made. -/
structure TtsTry where
  resp? : Option TtsResponse
  err? : Option String
  attempts : Nat
deriving DecidableEq

/-- The retry loop of `try_tts_generation` (`app.py` 158-191), recursing
on the remaining attempt budget.  A returned response with a non-empty
candidate list is a success; a response that is `None` or has no
candidates falls through to the next attempt; an exception on the last
attempt returns its message, otherwise the loop sleeps and retries; an
exhausted loop returns the generic failure message. -/
def tryTtsLoop (gen : Nat → GenCallResult) (maxRetries : Nat) :
    Nat → Nat → TtsTry
  | attempt, 0 =>
    ⟨none, some ("All " ++ toString maxRetries ++ " attempts failed"), attempt⟩
  | attempt, remaining + 1 =>
    match gen attempt with
    | .ret (some resp) =>
      if resp.candidates.isEmpty then tryTtsLoop gen maxRetries (attempt + 1) remaining
      else ⟨some resp, none, attempt + 1⟩
    | .ret none => tryTtsLoop gen maxRetries (attempt + 1) remaining
    | .raise msg =>
      if attempt < maxRetries - 1 then tryTtsLoop gen maxRetries (attempt + 1) remaining
      else ⟨none, some msg, attempt + 1⟩

/-- `app.try_tts_generation` for one model, `max_retries=2` by default. -/
def try_tts_generation (gen : Nat → GenCallResult) (maxRetries : Nat := 2) :
    TtsTry :=
  tryTtsLoop gen maxRetries 0 maxRetries

/-- The ordered model preference list (`app.py` 275-278). -/
def ttsModels : List String :=
  ["gemini-2.5-flash-preview-tts", "gemini-2.5-pro-preview-tts"]

/-- The model-fallback loop of `generate_podcast` Step 6 (`app.py`
283-292): try each model in order, keep the last error, stop at the first
model whose try returns a response; also accumulates the total number of
generation attempts. -/
def runTtsModels (gen : String → Nat → GenCallResult) :
    List String → Option String → Nat →
    Option (String × TtsResponse) × Option String × Nat
  | [], lastError, attempts => (none, lastError, attempts)
  | model :: rest, lastError, attempts =>
    let t := try_tts_generation (gen model)
    match t.resp? with
    | some resp => (some (model, resp), lastError, attempts + t.attempts)
    | none => runTtsModels gen rest t.err? (attempts + t.attempts)

/-- A generation call that does not count as a success for
`try_tts_generation`: an exception, a `None` response, or a response with
no candidates. -/
def genFailed : GenCallResult → Prop
  | .raise _ => True
  | .ret none => True
  | .ret (some r) => r.candidates = []

/-! ## The `/generate_podcast` orchestrator (`app.py` 193-382) -/

/-- A JSON value as used in the endpoint error bodies. -/
inductive JsonVal where
  | s (v : String)
  | arr (vs : List String)
deriving DecidableEq

/-- What the endpoint hands to the HTTP layer: a complete WAV byte buffer
served as `audio/wav`, or a JSON object (ordered key/value list) with a
status code. -/
inductive EndpointResult where
  | audio (wav : List Nat)
  | errorJson (body : List (String × JsonVal)) (status : Nat)
deriving DecidableEq

/-- One endpoint invocation, instrumented with the script text handed to
the synthesizer (`none` when synthesis is never reached) and the total
number of TTS generation attempts. -/
structure RunTrace where
  result : EndpointResult
  ttsScript : Option String
  ttsAttempts : Nat
deriving DecidableEq

/-- Environment of one `/generate_podcast` invocation: the credential,
the import/client-initialization outcomes, the writer call (`app.py`
treats it as returning any string, or raising), the TTS generation calls
(per model name and attempt index), and `base64.b64decode`. -/
structure AppEnv where
  geminiKey : Option String
  googleImport : Except String Unit
  writerImport : Except String Unit
  clientInit : Except String Unit
  scriptGen : Except String String
  gen : String → Nat → GenCallResult
  b64decode : String → Except String (List Nat)

/-- Step 5 of `generate_podcast` (`app.py` 248-265): reject an empty
script, a script starting with the literal `Error`, or a script whose
stripped length is under 50; truncate a script longer than 3000
characters to its first 3000 characters plus `...`. -/
def validateAndPrepareScript (script : String) : Except String String :=
  if script == "" then .error "Script generation returned empty result"
  else if pyStartsWith script "Error" then
    .error ("Script generation failed: " ++ script)
  else if (pyStrip script).length < 50 then
    .error "Generated script is too short"
  else
    .ok (if 3000 < script.length then pyTake script 3000 ++ "..." else script)

/-- Step 7 of `generate_podcast` (`app.py` 301-376): unwrap the first
first part of the first candidate, base64-decode its data, reject payloads under
1000 bytes, parse the sample rate from the media type, and build the WAV
container. -/
def processAudio (b64decode : String → Except String (List Nat))
    (resp : TtsResponse) : Except String (List Nat) :=
  match resp.candidates with
  | [] => .error "TTS response missing candidates"
  | candidate :: _ =>
    match candidate.content with
    | none => .error "TTS response missing content parts"
    | some content =>
      match content.parts with
      | [] => .error "TTS response missing content parts"
      | part :: _ =>
        match part.inline_data with
        | none => .error "TTS response missing inline_data"
        | some idata =>
          match idata.data with
          | none => .error "No audio data in TTS response"
          | some b64 =>
            if b64 == "" then .error "No audio data in TTS response"
            else
              match b64decode b64 with
              | .error e => .error ("Failed to decode audio data: " ++ e)
              | .ok pcm_bytes =>
                if pcm_bytes.length < 1000 then
                  .error ("Audio data too short: " ++ toString pcm_bytes.length ++ " bytes")
                else
                  .ok (buildWav (sampleRateOf idata.mime_type) pcm_bytes)

/-- `app.generate_podcast` (`app.py` 193-382).  Every failure is a JSON
body with status 500 via `safe_jsonify`; the `.env` reload (Step 2) has
its exceptions swallowed and is omitted; the all-models-failed body also
carries a `models_tried` list (line 296-299).  The outer `try` makes the
function total: no exception reaches the caller. -/
def generate_podcast (env : AppEnv) : RunTrace :=
  if pyFalsyOpt env.geminiKey then
    ⟨.errorJson [("error", .s "GEMINI_API_KEY not configured")] 500, none, 0⟩
  else
    match env.googleImport with
    | .error e =>
      ⟨.errorJson [("error", .s ("Failed to import Google AI modules: " ++ e))] 500, none, 0⟩
    | .ok _ =>
      match env.writerImport with
      | .error e =>
        ⟨.errorJson [("error", .s ("Failed to import writer module: " ++ e))] 500, none, 0⟩
      | .ok _ =>
        match env.clientInit with
        | .error e =>
          ⟨.errorJson [("error", .s ("TTS client initialization failed: " ++ e))] 500, none, 0⟩
        | .ok _ =>
          match env.scriptGen with
          | .error e =>
            ⟨.errorJson [("error", .s ("Script generation error: " ++ e))] 500, none, 0⟩
          | .ok script =>
            match validateAndPrepareScript script with
            | .error msg => ⟨.errorJson [("error", .s msg)] 500, none, 0⟩
            | .ok script' =>
              match runTtsModels env.gen ttsModels none 0 with
              | (none, lastError, attempts) =>
                ⟨.errorJson
                  [("error", .s ("TTS generation failed with all models. Last error: " ++
                    pyOptStr lastError)),
                   ("models_tried", .arr ttsModels)] 500, some script', attempts⟩
              | (some (_, resp), _, attempts) =>
                match processAudio env.b64decode resp with
                | .error msg =>
                  ⟨.errorJson [("error", .s msg)] 500, some script', attempts⟩
                | .ok wav_data => ⟨.audio wav_data, some script', attempts⟩

/-! ## Concrete instances used to evaluate the model -/

/-- A well-formed script value (longer than 50 characters, no `Error`
marker). -/
def validScript : String :=
  "Good evening, here are the latest updates from around the world tonight."

/-- Endpoint environment in which every TTS generation call raises. -/
def appEnvAllTtsFail : AppEnv :=
  ⟨some "k", .ok (), .ok (), .ok (), .ok validScript,
    fun _ _ => .raise "boom", fun _ => .error "unused"⟩

/-- Endpoint environment with a healthy script and flaky TTS backends. -/
def appEnvValid : AppEnv :=
  ⟨some "k", .ok (), .ok (), .ok (), .ok validScript,
    fun _ _ => .raise "down", fun _ => .error "unused"⟩

/-- Endpoint environment whose writer call returns a propagated `Error`
marker string. -/
def appEnvErrorScript : AppEnv :=
  ⟨some "k", .ok (), .ok (), .ok (), .ok "Error: upstream failure",
    fun _ _ => .raise "down", fun _ => .error "unused"⟩

/-- A TTS response with one candidate (and no content). -/
def fbResp : TtsResponse :=
  ⟨[⟨none⟩]⟩

/-- Generation calls for which the primary model always raises and the
fallback model succeeds immediately. -/
def fbGen : String → Nat → GenCallResult :=
  fun model _ =>
    if model == "gemini-2.5-pro-preview-tts" then .ret (some fbResp)
    else .raise "rate limited"

/-- A TTS response whose only part carries base64 data and a media type. -/
def shortAudioResp : TtsResponse :=
  ⟨[⟨some ⟨[⟨some ⟨some "QUJD", some "audio/pcm;rate=16000"⟩⟩]⟩⟩]⟩

/-- A decoder producing a 500-byte payload. -/
def shortAudioDecode : String → Except String (List Nat) :=
  fun _ => .ok (List.replicate 500 7)

/-- A model response consisting of 100 emphasis markers. -/
def starScript : String :=
  ⟨List.replicate 100 '*'⟩

/-- Writer environment in which all five fetchers fail and the text model
returns `starScript`. -/
def starWriterEnv : WriterEnv :=
  ⟨.ok (), some "k", none, none, .exn "down", none, .exn "down", none,
    .exn "down", none, .exn "down", none, none, .exn "down",
    "July 04, 2025", fun _ => .ok (some starScript)⟩

/-! ## Theorems -/

/-- Reading back a built container, with the 32-bit fields still in
little-endian digit form. -/
theorem readWav_buildWav (r : Nat) (pcm : List Nat) :
    readWav (buildWav r pcm) =
      some (1 + 256 * 0, (16 + 256 * 0) / 8,
        r % 256 + 256 * (r / 256 % 256) + 65536 * (r / 65536 % 256) +
          16777216 * (r / 16777216 % 256),
        pcm.take (pcm.length % 256 + 256 * (pcm.length / 256 % 256) +
          65536 * (pcm.length / 65536 % 256) +
          16777216 * (pcm.length / 16777216 % 256))) := rfl

/-- Claim C4: packaging N raw PCM bytes at rate R and reading the
container back yields declared channel count 1, sample width 2, frame
rate R, and exactly the original bytes.  The two bounds are the domain of
the 32-bit header fields of the WAV format (byte rate `2*R` and RIFF size
`36+N`); outside them the CPython `wave` module raises a `struct.error` instead of
producing a container. -/
theorem wav_roundtrip_preserves_format_and_data (pcm : List Nat) (R : Nat)
    (h1 : 2 * R < 4294967296) (h2 : pcm.length + 36 < 4294967296) :
    readWav (buildWav R pcm) = some (1, 2, R, pcm) := by
  rw [readWav_buildWav]
  have hr : R % 256 + 256 * (R / 256 % 256) + 65536 * (R / 65536 % 256) +
      16777216 * (R / 16777216 % 256) = R := by omega
  have hl : pcm.length % 256 + 256 * (pcm.length / 256 % 256) +
      65536 * (pcm.length / 65536 % 256) +
      16777216 * (pcm.length / 16777216 % 256) = pcm.length := by omega
  rw [hr, hl, List.take_length]

/-- Witness for C4 at rate 16000 and a 3-byte body. -/
theorem wav_roundtrip_preserves_format_and_data_witness :
    2 * 16000 < 4294967296 ∧ [(1 : Nat), 2, 3].length + 36 < 4294967296 ∧
      readWav (buildWav 16000 [1, 2, 3]) = some (1, 2, 16000, [1, 2, 3]) :=
  ⟨by norm_num, by decide,
    wav_roundtrip_preserves_format_and_data [1, 2, 3] 16000 (by norm_num) (by decide)⟩

/-- Claim C8: the sample rate of the packager is N whenever the media-type
string contains a `rate=N` token (leftmost match of `rate=(\d+)`), and
24000 when no such token is present; the built container declares that
rate in its header (the bound is the domain of the 32-bit header field). -/
theorem sample_rate_parsed_or_default (m : String) (pcm : List Nat) (n : Nat) :
    (rateSearch m = some n →
      sampleRateOf (some m) = n ∧
        (n < 4294967296 → declaredFrameRate (buildWav n pcm) = n)) ∧
    (rateSearch m = none →
      sampleRateOf (some m) = 24000 ∧
        declaredFrameRate (buildWav 24000 pcm) = 24000) := by
  have hdecl : ∀ r : Nat, declaredFrameRate (buildWav r pcm) =
      r % 256 + 256 * (r / 256 % 256) + 65536 * (r / 65536 % 256) +
        16777216 * (r / 16777216 % 256) := fun r => rfl
  constructor
  · intro h
    refine ⟨by simp [sampleRateOf, h], fun hn => ?_⟩
    rw [hdecl]
    omega
  · intro h
    exact ⟨by simp [sampleRateOf, h], by rw [hdecl]⟩

/-- Witness for C8: `audio/pcm;rate=16000` parses to 16000, a media type
with no `rate=` token defaults to 24000. -/
theorem sample_rate_parsed_or_default_witness :
    rateSearch "audio/pcm;rate=16000" = some 16000 ∧
      sampleRateOf (some "audio/pcm;rate=16000") = 16000 ∧
      sampleRateOf (some "audio/mp3") = 24000 :=
  ⟨by decide,
    ((sample_rate_parsed_or_default "audio/pcm;rate=16000" [0] 16000).1 (by decide)).1,
    ((sample_rate_parsed_or_default "audio/mp3" [0] 0).2 (by decide)).1⟩

/-- Claim C7: a base64 payload decoding to 500 bytes (below the 1000-byte
threshold) makes the audio packager return the `too short` error and no
container at all. -/
theorem audio_too_short_rejected (dec : String → Except String (List Nat))
    (resp : TtsResponse) (cand : TtsCandidate) (crest : List TtsCandidate)
    (ct : TtsContent) (part : TtsPart) (prest : List TtsPart)
    (idata : InlineData) (b64 : String) (pcm : List Nat)
    (hc : resp.candidates = cand :: crest)
    (hct : cand.content = some ct)
    (hp : ct.parts = part :: prest)
    (hid : part.inline_data = some idata)
    (hb64 : idata.data = some b64)
    (hne : (b64 == "") = false)
    (hdec : dec b64 = .ok pcm)
    (hlen : pcm.length = 500) :
    processAudio dec resp = .error "Audio data too short: 500 bytes" ∧
      ∀ wav, processAudio dec resp ≠ .ok wav := by
  have h : processAudio dec resp = .error "Audio data too short: 500 bytes" := by
    unfold processAudio
    rw [hc]
    simp only [hct, hp, hid, hb64, hne, hdec, hlen]
    norm_num
    rfl
  exact ⟨h, fun wav hw => by rw [h] at hw; exact Except.noConfusion hw⟩

/-- Witness for C7: a concrete one-candidate response whose payload
decodes to 500 bytes. -/
theorem audio_too_short_rejected_witness :
    (List.replicate 500 7).length = 500 ∧
      processAudio shortAudioDecode shortAudioResp =
        .error "Audio data too short: 500 bytes" :=
  ⟨List.length_replicate 500 7,
    (audio_too_short_rejected shortAudioDecode shortAudioResp _ _ _ _ _ _
      "QUJD" (List.replicate 500 7) rfl rfl rfl rfl rfl (by decide) rfl
      (List.length_replicate 500 7)).1⟩

/-- Claim C6: every fetcher maps every failure cause — missing
credential, HTTP error, URL error or timeout, any other exception
(malformed payloads raise while decoding) — to its empty-result value.
The fetchers are total Lean functions, so no exception propagates. -/
theorem fetchers_fail_to_empty :
    (∀ (k : Option String) (o : FetchOutcome GnewsJson),
      (pyFalsyOpt k = true ∨ ∀ d, o ≠ .ok d) → gnews_headlines k o = []) ∧
    (∀ (k : Option String) (o : FetchOutcome NewsapiJson),
      (pyFalsyOpt k = true ∨ ∀ d, o ≠ .ok d) → newsapi_headlines k o = []) ∧
    (∀ (k : Option String) (o : FetchOutcome NytimesJson),
      (pyFalsyOpt k = true ∨ ∀ d, o ≠ .ok d) → nytimes_headlines k o = []) ∧
    (∀ (k : Option String) (o : FetchOutcome AlphaMap),
      (pyFalsyOpt k = true ∨ ∀ d, o ≠ .ok d) → alpha_vantage_headlines k o = []) ∧
    (∀ (k position : Option String) (o : FetchOutcome WeatherMap),
      (pyFalsyOpt k = true ∨ ∀ d, o ≠ .ok d) → weather k position o = []) := by
  refine ⟨fun k o h => ?_, fun k o h => ?_, fun k o h => ?_, fun k o h => ?_,
    fun k position o h => ?_⟩ <;>
    [unfold gnews_headlines; unfold newsapi_headlines; unfold nytimes_headlines;
      unfold alpha_vantage_headlines; unfold weather] <;>
    rcases h with hk | ho
  all_goals first
    | (rw [hk]; simp)
    | (cases o <;> first
        | exact absurd rfl (ho _)
        | (split <;> rfl))

/-- Witness for C6: one concrete failure cause per fetcher. -/
theorem fetchers_fail_to_empty_witness :
    gnews_headlines none (.httpError 500 "server error") = [] ∧
      newsapi_headlines (some "k") (.httpError 429 "too many requests") = [] ∧
      nytimes_headlines (some "k") (.exn "malformed payload") = [] ∧
      alpha_vantage_headlines (some "k") (.urlError "timed out") = [] ∧
      weather (some "k") none (.urlError "timed out") = [] :=
  ⟨fetchers_fail_to_empty.1 none _ (Or.inl rfl),
    fetchers_fail_to_empty.2.1 (some "k") _
      (Or.inr fun _ h => FetchOutcome.noConfusion h),
    fetchers_fail_to_empty.2.2.1 (some "k") _
      (Or.inr fun _ h => FetchOutcome.noConfusion h),
    fetchers_fail_to_empty.2.2.2.1 (some "k") _
      (Or.inr fun _ h => FetchOutcome.noConfusion h),
    fetchers_fail_to_empty.2.2.2.2 (some "k") none _
      (Or.inr fun _ h => FetchOutcome.noConfusion h)⟩

/-- Character of a string at an index. -/
theorem strData_append (s t : String) : (s ++ t).data = s.data ++ t.data := rfl

/-- Indexing into the left part of an appended string. -/
theorem strAt_append_left (s t : String) (i : Nat) (h : i < s.length) :
    (s ++ t).data.get? i = s.data.get? i := by
  rw [strData_append, List.get?_eq_getElem?, List.get?_eq_getElem?]
  exact List.getElem?_append_left h

set_option maxRecDepth 4000 in
theorem len_fbA : 8 < fbA.length := by decide

set_option maxRecDepth 4000 in
theorem len_richA : 8 < richA.length := by decide

/-- The two prompt shapes differ (ninth character `a` versus `c`),
whatever data and dates are embedded. -/
theorem richPrompt_ne_fallbackPrompt (g n y : List String)
    (a w : List (String × String)) (d e : String) :
    richPrompt g n y a w d ≠ fallbackPrompt e := by
  intro h
  have h8 : (richPrompt g n y a w d).data.get? 8 = (fallbackPrompt e).data.get? 8 := by
    rw [h]
  rw [show richPrompt g n y a w d = richA ++ (d ++ (richB ++
      ((if !g.isEmpty then dumpsList (g.take 5) else "No data available") ++
      (richC ++
      ((if !n.isEmpty then dumpsList (n.take 5) else "No data available") ++
      (richD ++
      ((if !y.isEmpty then dumpsList (y.take 5) else "No data available") ++
      (richE ++
      ((if !a.isEmpty then dumpsMap a else "No data available") ++
      (richF ++
      ((if !w.isEmpty then dumpsMap w else "No data available") ++
      richG))))))))))) from rfl,
    show fallbackPrompt e = fbA ++ (e ++ fbB) from rfl,
    strAt_append_left _ _ 8 len_richA, strAt_append_left _ _ 8 len_fbA] at h8
  exact Option.noConfusion h8 fun hch => absurd hch (by decide)

/-- Claim C2: the composer emits the fallback prompt exactly when all
three primary news sources are empty; otherwise it emits the rich
prompt, whatever the business and weather results. -/
theorem composer_fallback_iff_all_primary_empty (g n y : List String)
    (a w : List (String × String)) (d : String) :
    (composePrompt g n y a w d = fallbackPrompt d ↔ g = [] ∧ n = [] ∧ y = []) ∧
    ((g ≠ [] ∨ n ≠ [] ∨ y ≠ []) →
      composePrompt g n y a w d = richPrompt g n y a w d) := by
  have hrich : (g ≠ [] ∨ n ≠ [] ∨ y ≠ []) →
      composePrompt g n y a w d = richPrompt g n y a w d := by
    intro hne
    have hcond : (!(!g.isEmpty || !n.isEmpty || !y.isEmpty)) = false := by
      rcases hne with h | h | h <;> cases g <;> cases n <;> cases y <;> simp_all
    unfold composePrompt
    rw [hcond]
    simp
  refine ⟨⟨fun h => ?_, ?_⟩, hrich⟩
  · by_contra hne
    have hne' : g ≠ [] ∨ n ≠ [] ∨ y ≠ [] := by
      cases g <;> cases n <;> cases y <;> simp_all
    rw [hrich hne'] at h
    exact richPrompt_ne_fallbackPrompt g n y a w d d h
  · rintro ⟨rfl, rfl, rfl⟩
    rfl

/-- Witness for C2: all-empty fetch results select the fallback prompt,
a single non-empty primary source selects the rich prompt. -/
theorem composer_fallback_iff_all_primary_empty_witness :
    composePrompt [] [] [] [] [] "July 04, 2025" = fallbackPrompt "July 04, 2025" ∧
      composePrompt ["x"] [] [] [] [] "July 04, 2025" =
        richPrompt ["x"] [] [] [] [] "July 04, 2025" :=
  ⟨(composer_fallback_iff_all_primary_empty [] [] [] [] [] _).1.2 ⟨rfl, rfl, rfl⟩,
    (composer_fallback_iff_all_primary_empty ["x"] [] [] [] [] _).2
      (Or.inl (by simp))⟩

/-- Base case of the retry loop: budget exhausted. -/
theorem tryTtsLoop_zero (gen : Nat → GenCallResult) (maxRetries attempt : Nat) :
    tryTtsLoop gen maxRetries attempt 0 =
      ⟨none, some ("All " ++ toString maxRetries ++ " attempts failed"), attempt⟩ := rfl

/-- Unfolding of one retry-loop step. -/
theorem tryTtsLoop_succ (gen : Nat → GenCallResult) (maxRetries attempt remaining : Nat) :
    tryTtsLoop gen maxRetries attempt (remaining + 1) =
      (match gen attempt with
      | .ret (some resp) =>
        if resp.candidates.isEmpty then tryTtsLoop gen maxRetries (attempt + 1) remaining
        else ⟨some resp, none, attempt + 1⟩
      | .ret none => tryTtsLoop gen maxRetries (attempt + 1) remaining
      | .raise msg =>
        if attempt < maxRetries - 1 then tryTtsLoop gen maxRetries (attempt + 1) remaining
        else ⟨none, some msg, attempt + 1⟩) := rfl

/-- A failing second attempt ends the default two-attempt try with no
response, some error, and both attempts consumed. -/
theorem try_second_failure (g : Nat → GenCallResult) (h1 : genFailed (g 1)) :
    ∃ e, tryTtsLoop g 2 1 1 = ⟨none, some e, 2⟩ := by
  rcases hg1 : g 1 with o1 | m1
  · rcases o1 with _ | r1
    · exact ⟨"All 2 attempts failed", by rw [tryTtsLoop_succ, hg1]; rfl⟩
    · rw [hg1] at h1
      simp only [genFailed] at h1
      refine ⟨"All 2 attempts failed", ?_⟩
      rw [tryTtsLoop_succ, hg1]
      simp only [h1, List.isEmpty_nil, if_true]
      rfl
  · refine ⟨m1, ?_⟩
    rw [tryTtsLoop_succ, hg1]
    simp only []
    rw [if_neg (by decide)]

/-- Two failing attempts end `try_tts_generation` with no response, some
error, and exactly 2 generation calls. -/
theorem try_two_failures (g : Nat → GenCallResult) (h0 : genFailed (g 0))
    (h1 : genFailed (g 1)) :
    ∃ e, try_tts_generation g = ⟨none, some e, 2⟩ := by
  unfold try_tts_generation
  rcases hg0 : g 0 with o0 | m0
  · rcases o0 with _ | r0
    · rw [tryTtsLoop_succ, hg0]
      exact try_second_failure g h1
    · rw [hg0] at h0
      simp only [genFailed] at h0
      rw [tryTtsLoop_succ, hg0]
      simp only [h0, List.isEmpty_nil, if_true]
      exact try_second_failure g h1
  · rw [tryTtsLoop_succ, hg0]
    simp only [show (0 < 2 - 1) = True by simp]
    simp only [if_true]
    exact try_second_failure g h1

/-- Unfolding of the model-fallback loop on an empty model list. -/
theorem runTtsModels_nil (gen : String → Nat → GenCallResult)
    (lastError : Option String) (attempts : Nat) :
    runTtsModels gen [] lastError attempts = (none, lastError, attempts) := rfl

/-- Unfolding of the model-fallback loop on one model. -/
theorem runTtsModels_cons (gen : String → Nat → GenCallResult) (model : String)
    (rest : List String) (lastError : Option String) (attempts : Nat) :
    runTtsModels gen (model :: rest) lastError attempts =
      (match (try_tts_generation (gen model)).resp? with
      | some resp =>
        (some (model, resp), lastError,
          attempts + (try_tts_generation (gen model)).attempts)
      | none =>
        runTtsModels gen rest (try_tts_generation (gen model)).err?
          (attempts + (try_tts_generation (gen model)).attempts)) := rfl

/-- Claim C3: if the primary model fails both attempts and the fallback
model succeeds on its first attempt (a response with a non-empty
candidate list), the synthesizer terminates successfully with the
response of the fallback model after exactly 3 generation attempts. -/
theorem synthesizer_fallback_success_after_three_attempts
    (gen : String → Nat → GenCallResult) (resp : TtsResponse)
    (hfail : ∀ a, a < 2 → genFailed (gen "gemini-2.5-flash-preview-tts" a))
    (hok : gen "gemini-2.5-pro-preview-tts" 0 = .ret (some resp))
    (hc : resp.candidates ≠ []) :
    ∃ e, runTtsModels gen ttsModels none 0 =
      (some ("gemini-2.5-pro-preview-tts", resp), e, 3) := by
  obtain ⟨e, he⟩ := try_two_failures (gen "gemini-2.5-flash-preview-tts")
    (hfail 0 (by norm_num)) (hfail 1 (by norm_num))
  have hfb : try_tts_generation (gen "gemini-2.5-pro-preview-tts") =
      ⟨some resp, none, 1⟩ := by
    unfold try_tts_generation
    rw [tryTtsLoop_succ, hok]
    rcases hr : resp.candidates with _ | ⟨c, cs⟩
    · exact absurd hr hc
    · simp only [hr, List.isEmpty_cons, if_false]
      rfl
  refine ⟨some e, ?_⟩
  rw [show ttsModels =
    "gemini-2.5-flash-preview-tts" :: ["gemini-2.5-pro-preview-tts"] from rfl]
  rw [runTtsModels_cons, he]
  simp only []
  rw [runTtsModels_cons, hfb]
  simp only []

/-- Witness for C3: the primary model always raises, the fallback model
returns a one-candidate response immediately. -/
theorem synthesizer_fallback_success_after_three_attempts_witness :
    ∃ e, runTtsModels fbGen ttsModels none 0 =
      (some ("gemini-2.5-pro-preview-tts", fbResp), e, 3) :=
  synthesizer_fallback_success_after_three_attempts fbGen fbResp
    (fun _ _ => trivial) rfl (by decide)

/-- A script accepted by Step 5 satisfies all three checks, and the
accepted value is the (possibly truncated) script. -/
theorem validate_ok_conditions (s t : String)
    (h : validateAndPrepareScript s = .ok t) :
    s ≠ "" ∧ pyStartsWith s "Error" = false ∧ 50 ≤ (pyStrip s).length ∧
      t = (if 3000 < s.length then pyTake s 3000 ++ "..." else s) := by
  unfold validateAndPrepareScript at h
  by_cases h1 : s == ""
  · rw [if_pos h1] at h
    exact Except.noConfusion h
  · rw [if_neg h1] at h
    by_cases h2 : pyStartsWith s "Error"
    · rw [if_pos h2] at h
      exact Except.noConfusion h
    · rw [if_neg h2] at h
      by_cases h3 : (pyStrip s).length < 50
      · rw [if_pos h3] at h
        exact Except.noConfusion h
      · rw [if_neg h3] at h
        injection h with ht
        refine ⟨fun hs => h1 (by rw [hs]; rfl), by simpa using h2, by omega, ht.symm⟩

/-- A script failing one of the three checks is rejected by Step 5. -/
theorem validate_invalid (s : String)
    (h : s = "" ∨ pyStartsWith s "Error" = true ∨ (pyStrip s).length < 50) :
    ∃ m, validateAndPrepareScript s = .error m := by
  unfold validateAndPrepareScript
  by_cases h1 : s == ""
  · rw [if_pos h1]
    exact ⟨_, rfl⟩
  · rw [if_neg h1]
    by_cases h2 : pyStartsWith s "Error"
    · rw [if_pos h2]
      exact ⟨_, rfl⟩
    · rw [if_neg h2]
      by_cases h3 : (pyStrip s).length < 50
      · rw [if_pos h3]
        exact ⟨_, rfl⟩
      · exfalso
        rcases h with hs | hs | hs
        · exact h1 (by rw [hs]; rfl)
        · exact h2 hs
        · exact h3 hs

/-- When the pipeline passes validation, Step 6 is reached and the
prepared script is handed to the synthesizer. -/
theorem generate_podcast_valid_script (env : AppEnv) (s t : String)
    (hk : pyFalsyOpt env.geminiKey = false)
    (hg : env.googleImport = .ok ())
    (hw : env.writerImport = .ok ())
    (hc : env.clientInit = .ok ())
    (hs : env.scriptGen = .ok s)
    (hv : validateAndPrepareScript s = .ok t) :
    (generate_podcast env).ttsScript = some t := by
  unfold generate_podcast
  rw [hk]
  simp only [Bool.false_eq_true, if_false, hg, hw, hc, hs, hv]
  rcases hrun : runTtsModels env.gen ttsModels none 0 with ⟨ro, le, a⟩
  rcases ro with _ | ⟨m, resp⟩
  · rfl
  · rcases hpa : processAudio env.b64decode resp with e | wv <;> simp [hpa]

/-- When the writer result never passes validation (or an earlier step
fails), synthesis is not reached and the endpoint returns a single-key
error body with status 500. -/
theorem generate_podcast_no_valid_script (env : AppEnv)
    (h : ∀ s, env.scriptGen = .ok s → ∃ m, validateAndPrepareScript s = .error m) :
    (generate_podcast env).ttsScript = none ∧
      ∃ msg, (generate_podcast env).result =
        .errorJson [("error", JsonVal.s msg)] 500 := by
  unfold generate_podcast
  split
  · exact ⟨rfl, _, rfl⟩
  · split
    · exact ⟨rfl, _, rfl⟩
    · split
      · exact ⟨rfl, _, rfl⟩
      · split
        · exact ⟨rfl, _, rfl⟩
        · split
          · exact ⟨rfl, _, rfl⟩
          · rename_i script hscript
            split
            · exact ⟨rfl, _, rfl⟩
            · rename_i t hval
              obtain ⟨m, hm⟩ := h script hscript
              rw [hm] at hval
              exact Except.noConfusion hval

/-- Claim C5: the script from the writer reaches the synthesizer only when it is
non-empty, does not start with `Error`, and has stripped length at least
50; a script failing one of the checks yields a single-key JSON error
with status 500 and synthesis is never reached. -/
theorem script_validation_gates_synthesis (env : AppEnv) (s : String)
    (hs : env.scriptGen = .ok s) :
    ((∃ t, (generate_podcast env).ttsScript = some t) →
      s ≠ "" ∧ pyStartsWith s "Error" = false ∧ 50 ≤ (pyStrip s).length) ∧
    ((s = "" ∨ pyStartsWith s "Error" = true ∨ (pyStrip s).length < 50) →
      (generate_podcast env).ttsScript = none ∧
        ∃ msg, (generate_podcast env).result =
          .errorJson [("error", JsonVal.s msg)] 500) := by
  have key : (s = "" ∨ pyStartsWith s "Error" = true ∨ (pyStrip s).length < 50) →
      (generate_podcast env).ttsScript = none ∧
        ∃ msg, (generate_podcast env).result =
          .errorJson [("error", JsonVal.s msg)] 500 := by
    intro hbad
    apply generate_podcast_no_valid_script
    intro s' hs'
    rw [hs] at hs'
    injection hs' with he
    subst he
    exact validate_invalid s hbad
  refine ⟨?_, key⟩
  rintro ⟨t, ht⟩
  by_cases h1 : s = ""
  · rw [(key (Or.inl h1)).1] at ht
    exact Option.noConfusion ht
  by_cases h2 : pyStartsWith s "Error" = true
  · rw [(key (Or.inr (Or.inl h2))).1] at ht
    exact Option.noConfusion ht
  by_cases h3 : (pyStrip s).length < 50
  · rw [(key (Or.inr (Or.inr h3))).1] at ht
    exact Option.noConfusion ht
  exact ⟨h1, by simpa using h2, by omega⟩

/-- Witness for C5: a writer result carrying the `Error` marker is
rejected with a 500 JSON error and synthesis is not reached. -/
theorem script_validation_gates_synthesis_witness :
    (generate_podcast appEnvErrorScript).ttsScript = none ∧
      ∃ msg, (generate_podcast appEnvErrorScript).result =
        .errorJson [("error", JsonVal.s msg)] 500 :=
  (script_validation_gates_synthesis appEnvErrorScript "Error: upstream failure"
    rfl).2 (Or.inr (Or.inl (by decide)))

/-- Claim C9: a validated script longer than 3000 characters is handed to
the synthesizer truncated to its first 3000 characters plus `...`; a
validated script of at most 3000 characters is handed over unchanged. -/
theorem long_script_truncated_for_tts (env : AppEnv) (s : String)
    (hk : pyFalsyOpt env.geminiKey = false)
    (hg : env.googleImport = .ok ())
    (hw : env.writerImport = .ok ())
    (hc : env.clientInit = .ok ())
    (hs : env.scriptGen = .ok s)
    (h1 : s ≠ "")
    (h2 : pyStartsWith s "Error" = false)
    (h3 : 50 ≤ (pyStrip s).length) :
    (generate_podcast env).ttsScript =
      some (if 3000 < s.length then pyTake s 3000 ++ "..." else s) := by
  have hv : validateAndPrepareScript s =
      .ok (if 3000 < s.length then pyTake s 3000 ++ "..." else s) := by
    unfold validateAndPrepareScript
    rw [if_neg (fun hh => h1 (eq_of_beq hh)), if_neg (by simp [h2]),
      if_neg (by omega)]
  exact generate_podcast_valid_script env s _ hk hg hw hc hs hv

set_option maxRecDepth 4000 in
/-- Witness for C9: a validated short script is handed to the synthesizer
unchanged. -/
theorem long_script_truncated_for_tts_witness :
    (generate_podcast appEnvValid).ttsScript = some validScript := by
  have h := long_script_truncated_for_tts appEnvValid validScript rfl rfl rfl rfl
    rfl (by decide) (by decide) (by decide)
  rw [if_neg (by decide)] at h
  exact h

/-- Claim C1 (amended): every invocation of the endpoint produces either
a complete WAV buffer or a JSON body with status 500 whose first entry is
an `error` message; the body is exactly the one-key object except on the
all-TTS-models-failed path, where it additionally carries `models_tried`.
The model is a total function, so no exception reaches the caller. -/
theorem endpoint_returns_audio_or_error_json (env : AppEnv) :
    (∃ wav, (generate_podcast env).result = .audio wav) ∨
    (∃ msg extra, (generate_podcast env).result =
        .errorJson (("error", JsonVal.s msg) :: extra) 500 ∧
      (extra = [] ∨ extra = [("models_tried", JsonVal.arr ttsModels)])) := by
  unfold generate_podcast
  repeat' split
  all_goals first
    | exact Or.inl ⟨_, rfl⟩
    | exact Or.inr ⟨_, [], rfl, Or.inl rfl⟩
    | exact Or.inr ⟨_, [("models_tried", JsonVal.arr ttsModels)], rfl, Or.inr rfl⟩

set_option maxRecDepth 4000 in
/-- When every TTS generation call raises, the error body of the endpoint
carries both an `error` and a `models_tried` key. -/
theorem appEnvAllTtsFail_run :
    (generate_podcast appEnvAllTtsFail).result =
      .errorJson
        [("error", JsonVal.s
            "TTS generation failed with all models. Last error: boom"),
         ("models_tried", JsonVal.arr ttsModels)] 500 := by
  decide

/-- Counterexample to claim C1 as stated: on the all-TTS-models-failed
path the JSON body is not of the one-key form `error ↦ message` (it also
carries `models_tried`), and it is not audio either. -/
theorem endpoint_error_body_not_bare_error_object :
    ¬ ((∃ wav, (generate_podcast appEnvAllTtsFail).result = .audio wav) ∨
       (∃ msg, (generate_podcast appEnvAllTtsFail).result =
          .errorJson [("error", JsonVal.s msg)] 500)) := by
  intro h
  rcases h with ⟨wav, hw⟩ | ⟨msg, hm⟩
  · rw [appEnvAllTtsFail_run] at hw
    exact EndpointResult.noConfusion hw
  · rw [appEnvAllTtsFail_run] at hm
    simp at hm

/-- Removing single `*` characters leaves no `*` behind. -/
theorem star_not_mem (l : List Char) : '*' ∉ removeStar l := by
  induction l with
  | nil => simp [removeStar]
  | cons c rest ih =>
    rw [removeStar]
    by_cases hc : c = '*'
    · rw [if_pos hc]
      exact ih
    · rw [if_neg hc]
      intro hmem
      rcases List.mem_cons.mp hmem with h | h
      · exact hc h.symm
      · exact ih h

/-- Claim C10: the writer applies the 100-character minimum to the
stripped model response before removing `**` and `*`, and the returned
script is the stripped response with the markup removed — hence it
contains no `*`, but it can end up shorter than 100 characters. -/
theorem writer_length_check_before_markup_removal (env : WriterEnv) (t : String)
    (h1 : env.genaiImport = .ok ())
    (h2 : pyFalsyOpt env.geminiKey = false)
    (h3 : env.clientInit = none)
    (h4 : env.modelCall (writerPrompt env) = .ok (some t))
    (h5 : (t == "") = false)
    (h6 : 100 ≤ (pyStrip t).length) :
    generate_podcast_script env = stripEmphasis (pyStrip t) ∧
      ∀ c ∈ (generate_podcast_script env).data, c ≠ '*' := by
  have hres : generate_podcast_script env = stripEmphasis (pyStrip t) := by
    unfold generate_podcast_script
    simp only [h1, get_api_key, h2, Bool.false_eq_true, if_false, h3, h4, h5]
    rw [if_neg (by omega)]
  refine ⟨hres, ?_⟩
  rw [hres]
  intro c hc hceq
  subst hceq
  exact star_not_mem _ hc

set_option maxRecDepth 4000 in
/-- Witness for C10: a response of 100 asterisks passes the length check
(applied before markup removal) and the writer returns the empty
string. -/
theorem writer_length_check_before_markup_removal_witness :
    100 ≤ (pyStrip starScript).length ∧
      generate_podcast_script starWriterEnv = "" := by
  have h := writer_length_check_before_markup_removal starWriterEnv starScript
    rfl rfl rfl rfl (by decide) (by decide)
  refine ⟨by decide, ?_⟩
  rw [h.1]
  decide
